import Mathlib

/-!
Shallow embedding of the rename plugin's name-classification engine and
rename orchestrator (src/src/main.ts and src/unnamed/part_000, a.k.a.
figma-node-types). Machine strings are modelled as Lean `String`/`List Char`;
the two compiled regular expressions are unfolded into explicit decidable
matchers with the same anchored semantics. The asynchronous orchestrator is
pure in effect (per-node state threading), so it is embedded as explicit
state passing; the naming-strategy collaborator is a parameter which may
fail (`Except`), modelling a thrown exception.
-/

/-! ## Character classes used by the JavaScript regexes -/

/-- JavaScript regex whitespace class `\s` (WhiteSpace plus LineTerminator). -/
def isJSWhitespace (c : Char) : Bool :=
  c.val == 9 || c.val == 10 || c.val == 11 || c.val == 12 || c.val == 13 ||
  c.val == 32 || c.val == 0xa0 || c.val == 0x1680 ||
  (0x2000 ≤ c.val && c.val ≤ 0x200a) ||
  c.val == 0x2028 || c.val == 0x2029 || c.val == 0x202f || c.val == 0x205f ||
  c.val == 0x3000 || c.val == 0xfeff

/-- JavaScript regex digit class `\d`, i.e. the ASCII digits. -/
def isAsciiDigit (c : Char) : Bool := '0' ≤ c && c ≤ '9'

/-- ASCII lower-casing of a character, matching how a non-unicode
case-insensitive JavaScript regex canonicalises when the pattern is ASCII. -/
def lowerChar (c : Char) : Char :=
  if 'A' ≤ c && c ≤ 'Z' then Char.ofNat (c.toNat + 32) else c

/-- Case-insensitive equality of character lists (ASCII folding). -/
def eqCI (a b : List Char) : Bool := a.map lowerChar == b.map lowerChar

/-! ## figma-node-types (src/unnamed/part_000) -/

/-- `ALL_FIGMA_NODE_TYPES`: the closed set of 27 node-kind literals. -/
def ALL_FIGMA_NODE_TYPES : List String :=
  ["SLICE", "FRAME", "GROUP", "COMPONENT_SET", "COMPONENT", "INSTANCE",
   "BOOLEAN_OPERATION", "VECTOR", "STAR", "LINE", "ELLIPSE", "POLYGON",
   "RECTANGLE", "TEXT", "STICKY", "CONNECTOR", "SHAPE_WITH_TEXT",
   "CODE_BLOCK", "STAMP", "WIDGET", "EMBED", "LINK_UNFURL", "MEDIA",
   "SECTION", "HIGHLIGHT", "WASHI_TAPE", "TABLE"]

/-- `BOOLEAN_OPERATIONS`: the four boolean-operation labels. -/
def BOOLEAN_OPERATIONS : List String := ["Union", "Intersect", "Subtract", "Exclude"]

/-- `isValidFigmaNodeType`: case-sensitive membership in the closed set
(the source backs it by a `Set`; membership is the same). -/
def isValidFigmaNodeType (t : String) : Bool := ALL_FIGMA_NODE_TYPES.contains t

/-- The regex `^(<kinds>|<boolean ops>)$` with flag `i`: the name
case-insensitively equals one of the 31 literals. -/
def figmaNameRegexTest (name : String) : Bool :=
  (ALL_FIGMA_NODE_TYPES ++ BOOLEAN_OPERATIONS).any fun l => eqCI name.data l.data

/-- Tail of the matcher for `^\S+\s\d+$`: scanning inside the `\S+` block
(at least one non-space already consumed); on the first whitespace character
the remainder must be one or more digits. -/
def afterWord : List Char → Bool
  | [] => false
  | c :: rest =>
    if isJSWhitespace c then !rest.isEmpty && rest.all isAsciiDigit
    else afterWord rest

/-- The regex `^\S+\s\d+$` (`figmaNameWithNumberRegex`): one or more
non-whitespace characters, one whitespace character, one or more digits.
Any match must split at the first whitespace character, so the matcher is
deterministic. -/
def matchesNameWithNumber : List Char → Bool
  | [] => false
  | c :: rest => !isJSWhitespace c && afterWord rest

/-- `figmaNameWithNumberRegex.test`, on strings. -/
def figmaNameWithNumberTest (name : String) : Bool :=
  matchesNameWithNumber name.data

/-- `isFigmaGeneratedName`: literal match (case-insensitive) or
word-plus-number shape. -/
def isFigmaGeneratedName (name : String) : Bool :=
  figmaNameRegexTest name || figmaNameWithNumberTest name

/-! ## Plugin-generated name pattern (src/src/main.ts) -/

/-- `PLUGIN_GENERATED_NAMES`. -/
def PLUGIN_GENERATED_NAMES : List String :=
  ["group", "frame", "grid", "row", "col", "video", "image",
   "boolean-union", "boolean-subtract", "boolean-intersect", "boolean-exclude"]

/-- Matcher for the regex fragment `\d+(?:,\s*\d+)?\]` anchored at the end:
one or more digits, optionally a comma, whitespace and a second digit run,
then the closing bracket ending the string. Digits and whitespace classes
are disjoint, so greedy runs are forced and the matcher is deterministic. -/
def matchIndexInner (cs : List Char) : Bool :=
  let r1 := cs.dropWhile isAsciiDigit
  !(cs.takeWhile isAsciiDigit).isEmpty &&
    (r1 == [']'] ||
      match r1 with
      | ',' :: r2 =>
        let r3 := r2.dropWhile isJSWhitespace
        !(r3.takeWhile isAsciiDigit).isEmpty && r3.dropWhile isAsciiDigit == [']']
      | _ => false)

/-- Matcher for the optional suffix `-\[\d+(?:,\s*\d+)?\]` taken whole. -/
def pluginIndexSuffix : List Char → Bool
  | '-' :: '[' :: rest => matchIndexInner rest
  | _ => false

/-- One alternative of `PLUGIN_NAME_PATTERN`: the name is the token itself,
or the token followed by the whole index suffix. -/
def pluginTokenMatch (tokCs nameCs : List Char) : Bool :=
  nameCs == tokCs ||
  (nameCs.take tokCs.length == tokCs && pluginIndexSuffix (nameCs.drop tokCs.length))

/-- `PLUGIN_NAME_PATTERN.test`: the anchored alternation over the plugin
tokens, with the optional index suffix (no token is a prefix of another,
so alternation order is irrelevant). -/
def pluginNamePatternTest (name : String) : Bool :=
  PLUGIN_GENERATED_NAMES.any fun tok => pluginTokenMatch tok.data name.data

/-! ## Scene nodes and options -/

mutual
/-- A scene node: `id`, `name`, `type`, `locked`, `visible`, the text-kind
`autoRename` flag, and the children slot. -/
inductive SceneNode where
  | mk (id name type : String) (locked visible autoRename : Bool)
      (children : Children) : SceneNode

/-- Presence or absence of the `children` property (`"children" in node`). -/
inductive Children where
  | none : Children
  | some (forest : Forest) : Children

/-- An ordered sequence of child nodes. -/
inductive Forest where
  | nil : Forest
  | cons (head : SceneNode) (tail : Forest) : Forest
end

def SceneNode.id : SceneNode → String
  | .mk i _ _ _ _ _ _ => i

def SceneNode.name : SceneNode → String
  | .mk _ n _ _ _ _ _ => n

def SceneNode.type : SceneNode → String
  | .mk _ _ t _ _ _ _ => t

def SceneNode.locked : SceneNode → Bool
  | .mk _ _ _ l _ _ _ => l

def SceneNode.visible : SceneNode → Bool
  | .mk _ _ _ _ v _ _ => v

def SceneNode.autoRename : SceneNode → Bool
  | .mk _ _ _ _ _ a _ => a

def SceneNode.children : SceneNode → Children
  | .mk _ _ _ _ _ _ c => c

/-- Assignment `node.name = newName`. -/
def SceneNode.setName : SceneNode → String → SceneNode
  | .mk i _ t l v a c, n => .mk i n t l v a c

def SceneNode.setChildren : SceneNode → Children → SceneNode
  | .mk i n t l v a _, c => .mk i n t l v a c

/-- `AllOptions` (src/src/types.ts shape, as used by main.ts). -/
structure AllOptions where
  locked : Bool
  hidden : Bool
  «instance» : Bool
  showSpacing : Bool
  renameCustomNames : Bool
  usePascalCase : Bool

/-- The naming-strategy collaborator `namingManager.generateName`:
may fail (a thrown exception is an `Except.error`). -/
def NamingStrategy : Type :=
  SceneNode → AllOptions → Except String String

/-! ## The classifier (src/src/main.ts, isFigmaOrPluginGeneratedName) -/

/-- `isFigmaOrPluginGeneratedName`. -/
def isFigmaOrPluginGeneratedName (node : SceneNode) : Bool :=
  let name := node.name
  if !isValidFigmaNodeType node.type then false
  else if node.type == "TEXT" then node.autoRename || name == "text"
  else if node.type == "COMPONENT" || node.type == "COMPONENT_SET" then
    figmaNameWithNumberTest name
  else if isFigmaGeneratedName name then true
  else pluginNamePatternTest name

/-! ## Per-node rename (src/src/main.ts, renameLayer) -/

/-- `renameLayer`: guards, the custom-name gate, the collaborator call and
the conditional mutation. The `try`/`catch` surrounds the whole body; in
this embedding only the collaborator can fail, and a failure yields
`(false, node)` (logged and notified in the source). Returns the
"renamed?" flag and the node state afterwards. -/
def renameLayer (gen : NamingStrategy) (node : SceneNode)
    (options : AllOptions) : Bool × SceneNode :=
  if node.locked && !options.locked then (false, node)
  else if node.visible == false && !options.hidden then (false, node)
  else if node.type == "INSTANCE" && !options.«instance» then (false, node)
  else if !options.renameCustomNames && !isFigmaOrPluginGeneratedName node then
    (false, node)
  else
    match gen node options with
    | Except.error _ => (false, node)
    | Except.ok newName =>
      if node.name != newName then (true, node.setName newName) else (false, node)

/-! ## Recursive descent (src/src/main.ts, renameNodeAndChildren) -/

mutual
/-- `renameNodeAndChildren`: instance gate, then the per-node attempt, then
the conditional recursion into children. `renameLayer` can only change the
name, so reading the children slot after it is reading the matched field. -/
def renameNodeAndChildren (gen : NamingStrategy) (options : AllOptions) :
    SceneNode → Bool × SceneNode
  | SceneNode.mk i nm t l v a c =>
    if t == "INSTANCE" && !options.«instance» then
      (false, SceneNode.mk i nm t l v a c)
    else
      let p := renameLayer gen (SceneNode.mk i nm t l v a c) options
      match c with
      | Children.none => p
      | Children.some f =>
        if t != "INSTANCE" || options.«instance» then
          let q := renameForest gen options f
          (p.1 || q.1, p.2.setChildren (Children.some q.2))
        else p

/-- `Promise.all(node.children.map(renameNodeAndChildren))` followed by the
`some` aggregation, as left-to-right state threading. -/
def renameForest (gen : NamingStrategy) (options : AllOptions) :
    Forest → Bool × Forest
  | Forest.nil => (false, Forest.nil)
  | Forest.cons h t =>
    let ph := renameNodeAndChildren gen options h
    let pt := renameForest gen options t
    (ph.1 || pt.1, Forest.cons ph.2 pt.2)
end

/-! ## Batch processing (src/src/main.ts, processBatchNodes) -/

/-- Splitting of the selection into consecutive slices of 50, mirroring
`nodes.slice(i, i + batchSize)`. The first argument is the remaining
capacity of the open slice, the second the open slice reversed. -/
def batchesGo : Nat → List SceneNode → List SceneNode → List (List SceneNode)
  | _, acc, [] => if acc.isEmpty then [] else [acc.reverse]
  | 0, acc, x :: xs => acc.reverse :: batchesGo 49 [x] xs
  | k + 1, acc, x :: xs => batchesGo k (x :: acc) xs

/-- The loop body of `processBatchNodes`: process each batch in order,
accumulate `hasRenamed` with `||`, and collect the resulting node states.
(The inter-batch `setTimeout` yield has no effect on the pure state.) -/
def processBatches (gen : NamingStrategy) (options : AllOptions) :
    List (List SceneNode) → Bool → Bool × List SceneNode
  | [], acc => (acc, [])
  | b :: bs, acc =>
    let results := b.map fun n => renameNodeAndChildren gen options n
    let acc1 := acc || results.any fun r => r.1
    let rest := processBatches gen options bs acc1
    (rest.1, (results.map fun r => r.2) ++ rest.2)

/-- `processBatchNodes` with `batchSize = 50`, starting from
`hasRenamed = false`. -/
def processBatchNodes (gen : NamingStrategy) (options : AllOptions)
    (nodes : List SceneNode) : Bool × List SceneNode :=
  processBatches gen options (batchesGo 50 [] nodes) false

/-- `renameLayersInSelection`: run the batch processor over the current
selection (passed explicitly here) and report whether anything changed. -/
def renameLayersInSelection (gen : NamingStrategy) (selection : List SceneNode)
    (options : AllOptions) : Bool × List SceneNode :=
  processBatchNodes gen options selection

/-! ## Name erasure (used to state name-independence of a strategy) -/

mutual
/-- The node with every name in it erased: what remains is exactly the
data a rename run can never change. -/
def stripNames : SceneNode → SceneNode
  | SceneNode.mk i _ t l v a c => SceneNode.mk i "" t l v a (stripChildren c)

def stripChildren : Children → Children
  | Children.none => Children.none
  | Children.some f => Children.some (stripForest f)

def stripForest : Forest → Forest
  | Forest.nil => Forest.nil
  | Forest.cons h t => Forest.cons (stripNames h) (stripForest t)
end

/-! ## Structural lemmas about renameLayer -/

/-- The classifier reads only the name, the type and the autoRename flag. -/
theorem classifier_depends (i i2 nm t : String) (l v a l2 v2 : Bool)
    (c c2 : Children) :
    isFigmaOrPluginGeneratedName (SceneNode.mk i2 nm t l2 v2 a c2)
      = isFigmaOrPluginGeneratedName (SceneNode.mk i nm t l v a c) := rfl

/-- renameLayer changes at most the name field. -/
theorem renameLayer_fields (gen : NamingStrategy) (o : AllOptions)
    (i nm t : String) (l v a : Bool) (c : Children) :
    (renameLayer gen (SceneNode.mk i nm t l v a c) o).2
      = SceneNode.mk i ((renameLayer gen (SceneNode.mk i nm t l v a c) o).2.name)
          t l v a c := by
  simp only [renameLayer]
  repeat' split
  all_goals simp [SceneNode.setName, SceneNode.name]

/-- renameLayer reports a rename exactly when the resulting name differs. -/
theorem renameLayer_fst_iff (gen : NamingStrategy) (o : AllOptions)
    (n : SceneNode) :
    ((renameLayer gen n o).1 = true ↔ (renameLayer gen n o).2.name ≠ n.name) := by
  obtain ⟨i, nm, t, l, v, a, c⟩ := n
  simp only [renameLayer]
  repeat' split
  all_goals simp_all [SceneNode.setName, SceneNode.name, bne_iff_ne]
  all_goals (rename_i hne; exact fun h => hne h.symm)

/-- renameLayer preserves the node up to names. -/
theorem renameLayer_strip (gen : NamingStrategy) (o : AllOptions)
    (n : SceneNode) :
    stripNames (renameLayer gen n o).2 = stripNames n := by
  obtain ⟨i, nm, t, l, v, a, c⟩ := n
  rw [renameLayer_fields]
  simp [stripNames]

/-! ## Batch processing is per-node processing in selection order -/

/-- Processing every node of a list, threading states left to right. -/
def runAll (gen : NamingStrategy) (options : AllOptions) :
    List SceneNode → Bool × List SceneNode
  | [] => (false, [])
  | n :: ns =>
    let p := renameNodeAndChildren gen options n
    let q := runAll gen options ns
    (p.1 || q.1, p.2 :: q.2)

theorem runAll_append (gen : NamingStrategy) (o : AllOptions)
    (as bs : List SceneNode) :
    runAll gen o (as ++ bs)
      = ((runAll gen o as).1 || (runAll gen o bs).1,
         (runAll gen o as).2 ++ (runAll gen o bs).2) := by
  induction as with
  | nil => simp [runAll]
  | cons a as ih => simp [runAll, ih, Bool.or_assoc]

theorem runAll_eq_map (gen : NamingStrategy) (o : AllOptions)
    (b : List SceneNode) :
    runAll gen o b
      = ((b.map fun n => renameNodeAndChildren gen o n).any (fun r => r.1),
         (b.map fun n => renameNodeAndChildren gen o n).map fun r => r.2) := by
  induction b with
  | nil => simp [runAll]
  | cons n ns ih => simp [runAll, ih]

theorem processBatches_cons (gen : NamingStrategy) (o : AllOptions)
    (b : List SceneNode) (bs : List (List SceneNode)) (acc : Bool) :
    processBatches gen o (b :: bs) acc
      = ((processBatches gen o bs (acc || (runAll gen o b).1)).1,
         (runAll gen o b).2
           ++ (processBatches gen o bs (acc || (runAll gen o b).1)).2) := by
  simp [processBatches, runAll_eq_map]

theorem processBatches_batchesGo (gen : NamingStrategy) (o : AllOptions)
    (xs : List SceneNode) : ∀ (k : Nat) (acc : List SceneNode) (bacc : Bool),
    processBatches gen o (batchesGo k acc xs) bacc
      = (bacc || (runAll gen o (acc.reverse ++ xs)).1,
         (runAll gen o (acc.reverse ++ xs)).2) := by
  induction xs with
  | nil =>
    intro k acc bacc
    cases acc with
    | nil => simp [batchesGo, processBatches, runAll]
    | cons a as =>
      simp only [batchesGo, List.isEmpty_cons]
      rw [if_neg (by simp), processBatches_cons]
      simp [processBatches]
  | cons x xs ih =>
    intro k acc bacc
    match k with
    | 0 =>
      simp only [batchesGo]
      rw [processBatches_cons, ih 49 [x],
        runAll_append gen o acc.reverse (x :: xs)]
      simp [Bool.or_assoc]
    | k + 1 =>
      simp only [batchesGo]
      rw [ih k (x :: acc)]
      simp

/-- The batched run equals the plain per-node run over the selection. -/
theorem processBatchNodes_eq_runAll (gen : NamingStrategy) (o : AllOptions)
    (ns : List SceneNode) :
    processBatchNodes gen o ns = runAll gen o ns := by
  rw [processBatchNodes, processBatches_batchesGo gen o ns 50 [] false]
  simp

/-! ## Branch equations for the recursive descent -/

theorem rnac_guard (gen : NamingStrategy) (o : AllOptions)
    (i nm t : String) (l v a : Bool) (c : Children)
    (hg : (t == "INSTANCE" && !o.«instance») = true) :
    renameNodeAndChildren gen o (SceneNode.mk i nm t l v a c)
      = (false, SceneNode.mk i nm t l v a c) := by
  rw [renameNodeAndChildren, if_pos hg]

theorem rnac_none (gen : NamingStrategy) (o : AllOptions)
    (i nm t : String) (l v a : Bool)
    (hg : (t == "INSTANCE" && !o.«instance») = false) :
    renameNodeAndChildren gen o (SceneNode.mk i nm t l v a Children.none)
      = renameLayer gen (SceneNode.mk i nm t l v a Children.none) o := by
  rw [renameNodeAndChildren, if_neg (by simp [hg])]

theorem guard_to_branch {t : String} {o : AllOptions}
    (hg : (t == "INSTANCE" && !o.«instance») = false) :
    (t != "INSTANCE" || o.«instance») = true := by
  cases h1 : (t == "INSTANCE") with
  | false => simp [bne, h1]
  | true =>
    cases h2 : o.«instance» with
    | true => simp [h2]
    | false => rw [h1, h2] at hg; simp at hg

theorem rnac_some (gen : NamingStrategy) (o : AllOptions)
    (i nm t : String) (l v a : Bool) (f : Forest)
    (hg : (t == "INSTANCE" && !o.«instance») = false) :
    renameNodeAndChildren gen o (SceneNode.mk i nm t l v a (Children.some f))
      = ((renameLayer gen (SceneNode.mk i nm t l v a (Children.some f)) o).1
           || (renameForest gen o f).1,
         (renameLayer gen (SceneNode.mk i nm t l v a (Children.some f)) o).2.setChildren
           (Children.some (renameForest gen o f).2)) := by
  rw [renameNodeAndChildren, if_neg (by simp [hg])]
  simp only []
  rw [if_pos (guard_to_branch hg)]

theorem renameForest_cons (gen : NamingStrategy) (o : AllOptions)
    (h : SceneNode) (tl : Forest) :
    renameForest gen o (Forest.cons h tl)
      = ((renameNodeAndChildren gen o h).1 || (renameForest gen o tl).1,
         Forest.cons (renameNodeAndChildren gen o h).2 (renameForest gen o tl).2) := by
  rw [renameForest]

/-- Repackaging of the renameLayer lemmas around a fresh name variable,
safe for rewriting. -/
theorem renameLayer_split (gen : NamingStrategy) (o : AllOptions)
    (i nm t : String) (l v a : Bool) (c : Children) :
    ∃ N, (renameLayer gen (SceneNode.mk i nm t l v a c) o).2
        = SceneNode.mk i N t l v a c
      ∧ ((renameLayer gen (SceneNode.mk i nm t l v a c) o).1 = true ↔ ¬(N = nm)) :=
  ⟨_, renameLayer_fields gen o i nm t l v a c,
    by rw [renameLayer_fst_iff gen o]; simp [SceneNode.name]⟩

/-! ## The rename flag reports exactly an actual change -/

mutual
theorem rnac_fst_iff (gen : NamingStrategy) (o : AllOptions) :
    ∀ n : SceneNode, ((renameNodeAndChildren gen o n).1 = true
      ↔ (renameNodeAndChildren gen o n).2 ≠ n)
  | SceneNode.mk i nm t l v a c => by
    cases hg : (t == "INSTANCE" && !o.«instance») with
    | true => simp [rnac_guard gen o i nm t l v a c hg]
    | false =>
      obtain ⟨N, h2, h1⟩ := renameLayer_split gen o i nm t l v a c
      cases c with
      | none =>
        rw [rnac_none gen o i nm t l v a hg, h1, h2]
        simp [SceneNode.mk.injEq]
      | some f =>
        have ihf := rforest_fst_iff gen o f
        rw [rnac_some gen o i nm t l v a f hg]
        simp only [Bool.or_eq_true]
        rw [h1, ihf, h2]
        simp only [SceneNode.setChildren, ne_eq, SceneNode.mk.injEq,
          Children.some.injEq, eq_self_iff_true, true_and]
        rw [not_and_or]

theorem rforest_fst_iff (gen : NamingStrategy) (o : AllOptions) :
    ∀ f : Forest, ((renameForest gen o f).1 = true
      ↔ (renameForest gen o f).2 ≠ f)
  | Forest.nil => by simp [renameForest]
  | Forest.cons h tl => by
    have ihh := rnac_fst_iff gen o h
    have iht := rforest_fst_iff gen o tl
    rw [renameForest_cons]
    simp only [Bool.or_eq_true]
    rw [ihh, iht]
    simp only [ne_eq, Forest.cons.injEq]
    rw [not_and_or]
end

/-! ## A rename run changes nothing but names -/

mutual
theorem rnac_strip (gen : NamingStrategy) (o : AllOptions) :
    ∀ n : SceneNode,
      stripNames (renameNodeAndChildren gen o n).2 = stripNames n
  | SceneNode.mk i nm t l v a c => by
    cases hg : (t == "INSTANCE" && !o.«instance») with
    | true => rw [rnac_guard gen o i nm t l v a c hg]
    | false =>
      obtain ⟨N, h2, h1⟩ := renameLayer_split gen o i nm t l v a c
      cases c with
      | none => rw [rnac_none gen o i nm t l v a hg, h2]; simp [stripNames]
      | some f =>
        have ihf := rforest_strip gen o f
        rw [rnac_some gen o i nm t l v a f hg]
        simp only [h2]
        simp [SceneNode.setChildren, stripNames, stripChildren, ihf]

theorem rforest_strip (gen : NamingStrategy) (o : AllOptions) :
    ∀ f : Forest, stripForest (renameForest gen o f).2 = stripForest f
  | Forest.nil => by simp [renameForest]
  | Forest.cons h tl => by
    rw [renameForest_cons]
    simp [stripForest, rnac_strip gen o h, rforest_strip gen o tl]
end

/-! ## An always-failing strategy renames nothing -/

theorem renameLayer_error (gen : NamingStrategy) (o : AllOptions)
    (n : SceneNode) (herr : ∀ m o2, ∃ e, gen m o2 = Except.error e) :
    renameLayer gen n o = (false, n) := by
  obtain ⟨e, he⟩ := herr n o
  simp [renameLayer, he]

mutual
theorem rnac_error (gen : NamingStrategy) (o : AllOptions)
    (herr : ∀ m o2, ∃ e, gen m o2 = Except.error e) :
    ∀ n : SceneNode, renameNodeAndChildren gen o n = (false, n)
  | SceneNode.mk i nm t l v a c => by
    cases hg : (t == "INSTANCE" && !o.«instance») with
    | true => exact rnac_guard gen o i nm t l v a c hg
    | false =>
      cases c with
      | none =>
        rw [rnac_none gen o i nm t l v a hg, renameLayer_error gen o _ herr]
      | some f =>
        rw [rnac_some gen o i nm t l v a f hg,
          renameLayer_error gen o _ herr, rforest_error gen o herr f]
        simp [SceneNode.setChildren]

theorem rforest_error (gen : NamingStrategy) (o : AllOptions)
    (herr : ∀ m o2, ∃ e, gen m o2 = Except.error e) :
    ∀ f : Forest, renameForest gen o f = (false, f)
  | Forest.nil => by simp [renameForest]
  | Forest.cons h tl => by
    rw [renameForest_cons, rnac_error gen o herr h, rforest_error gen o herr tl]
    simp
end

theorem runAll_error (gen : NamingStrategy) (o : AllOptions)
    (herr : ∀ m o2, ∃ e, gen m o2 = Except.error e) (ns : List SceneNode) :
    runAll gen o ns = (false, ns) := by
  induction ns with
  | nil => simp [runAll]
  | cons n ns ih => simp [runAll, ih, rnac_error gen o herr n]

/-! ## Second application of renameLayer is a no-op -/

/-- Evaluation of renameLayer once the three skip guards are known false. -/
theorem renameLayer_eval (gen : NamingStrategy) (o : AllOptions)
    (i nm t : String) (l v a : Bool) (c : Children)
    (h1 : ¬(l && !o.locked) = true) (h2 : ¬(v == false && !o.hidden) = true)
    (h3 : ¬(t == "INSTANCE" && !o.«instance») = true) :
    renameLayer gen (SceneNode.mk i nm t l v a c) o
      = if (!o.renameCustomNames
            && !isFigmaOrPluginGeneratedName (SceneNode.mk i nm t l v a c)) = true
        then (false, SceneNode.mk i nm t l v a c)
        else match gen (SceneNode.mk i nm t l v a c) o with
          | Except.error _ => (false, SceneNode.mk i nm t l v a c)
          | Except.ok p =>
            if (nm != p) = true
            then (true, SceneNode.mk i p t l v a c)
            else (false, SceneNode.mk i nm t l v a c) := by
  rw [renameLayer]
  simp only [SceneNode.locked, SceneNode.visible, SceneNode.type,
    SceneNode.name, SceneNode.setName]
  rw [if_neg h1, if_neg h2, if_neg h3]

/-- If the strategy's proposals do not depend on current names, then
renameLayer, applied to any node that agrees with the first run's output
on the name and differs from the original node only in names, is a no-op. -/
theorem renameLayer_second (gen : NamingStrategy) (o : AllOptions)
    (hg : ∀ m, gen m o = gen (stripNames m) o)
    (n n2 : SceneNode)
    (hstrip : stripNames n2 = stripNames n)
    (hname : n2.name = (renameLayer gen n o).2.name) :
    renameLayer gen n2 o = (false, n2) := by
  obtain ⟨i, nm, t, l, v, a, c⟩ := n
  obtain ⟨i2, nm2, t2, l2, v2, a2, c2⟩ := n2
  simp only [stripNames] at hstrip
  injection hstrip with hi he ht hl hv ha hc
  subst i2; subst t2; subst l2; subst v2; subst a2
  have hgen2 : gen (SceneNode.mk i nm2 t l v a c2) o
      = gen (SceneNode.mk i nm t l v a c) o := by
    rw [hg (SceneNode.mk i nm2 t l v a c2), hg (SceneNode.mk i nm t l v a c)]
    simp only [stripNames]
    rw [hc]
  have hcl : isFigmaOrPluginGeneratedName (SceneNode.mk i nm t l v a c2)
      = isFigmaOrPluginGeneratedName (SceneNode.mk i nm t l v a c) := rfl
  by_cases h1 : (l && !o.locked) = true
  · rw [renameLayer]
    simp only [SceneNode.locked]
    rw [if_pos h1]
  by_cases h2 : (v == false && !o.hidden) = true
  · rw [renameLayer]
    simp only [SceneNode.locked, SceneNode.visible]
    rw [if_neg h1, if_pos h2]
  by_cases h3 : (t == "INSTANCE" && !o.«instance») = true
  · rw [renameLayer]
    simp only [SceneNode.locked, SceneNode.visible, SceneNode.type]
    rw [if_neg h1, if_neg h2, if_pos h3]
  by_cases h4 : (!o.renameCustomNames
      && !isFigmaOrPluginGeneratedName (SceneNode.mk i nm t l v a c)) = true
  · have hrl : renameLayer gen (SceneNode.mk i nm t l v a c) o
        = (false, SceneNode.mk i nm t l v a c) := by
      rw [renameLayer_eval gen o i nm t l v a c h1 h2 h3, if_pos h4]
    rw [hrl] at hname
    simp only [SceneNode.name] at hname
    rw [hname] at hgen2 ⊢
    rw [renameLayer_eval gen o i nm t l v a c2 h1 h2 h3, hcl, if_pos h4]
  cases hge : gen (SceneNode.mk i nm t l v a c) o with
  | error e =>
    have hrl : renameLayer gen (SceneNode.mk i nm t l v a c) o
        = (false, SceneNode.mk i nm t l v a c) := by
      rw [renameLayer_eval gen o i nm t l v a c h1 h2 h3, if_neg h4, hge]
    rw [hrl] at hname
    simp only [SceneNode.name] at hname
    rw [hname] at hgen2 ⊢
    rw [renameLayer_eval gen o i nm t l v a c2 h1 h2 h3]
    by_cases h4' : (!o.renameCustomNames
        && !isFigmaOrPluginGeneratedName (SceneNode.mk i nm t l v a c2)) = true
    · rw [if_pos h4']
    · rw [if_neg h4', hgen2, hge]
  | ok p =>
    by_cases h5 : (nm != p) = true
    · have hrl : renameLayer gen (SceneNode.mk i nm t l v a c) o
          = (true, SceneNode.mk i p t l v a c) := by
        rw [renameLayer_eval gen o i nm t l v a c h1 h2 h3, if_neg h4, hge]
        exact if_pos h5
      rw [hrl] at hname
      simp only [SceneNode.name] at hname
      rw [hname] at hgen2 ⊢
      rw [renameLayer_eval gen o i p t l v a c2 h1 h2 h3]
      by_cases h4' : (!o.renameCustomNames
          && !isFigmaOrPluginGeneratedName (SceneNode.mk i p t l v a c2)) = true
      · rw [if_pos h4']
      · rw [if_neg h4', hgen2, hge]
        exact if_neg (by simp)
    · have hrl : renameLayer gen (SceneNode.mk i nm t l v a c) o
          = (false, SceneNode.mk i nm t l v a c) := by
        rw [renameLayer_eval gen o i nm t l v a c h1 h2 h3, if_neg h4, hge]
        exact if_neg h5
      rw [hrl] at hname
      simp only [SceneNode.name] at hname
      rw [hname] at hgen2 ⊢
      rw [renameLayer_eval gen o i nm t l v a c2 h1 h2 h3]
      by_cases h4' : (!o.renameCustomNames
          && !isFigmaOrPluginGeneratedName (SceneNode.mk i nm t l v a c2)) = true
      · rw [if_pos h4']
      · rw [if_neg h4', hgen2, hge]
        exact if_neg h5

/-! ## Second full run is a no-op -/

mutual
theorem rnac_again (gen : NamingStrategy) (o : AllOptions)
    (hg : ∀ m, gen m o = gen (stripNames m) o) :
    ∀ n : SceneNode,
      renameNodeAndChildren gen o (renameNodeAndChildren gen o n).2
        = (false, (renameNodeAndChildren gen o n).2)
  | SceneNode.mk i nm t l v a c => by
    cases hguard : (t == "INSTANCE" && !o.«instance») with
    | true =>
      rw [rnac_guard gen o i nm t l v a c hguard]
      exact rnac_guard gen o i nm t l v a c hguard
    | false =>
      obtain ⟨N, h2, h1⟩ := renameLayer_split gen o i nm t l v a c
      cases c with
      | none =>
        rw [rnac_none gen o i nm t l v a hguard, h2,
          rnac_none gen o i N t l v a hguard]
        refine renameLayer_second gen o hg
          (SceneNode.mk i nm t l v a Children.none) _ rfl ?_
        rw [h2]
      | some f =>
        have ihf := rforest_again gen o hg f
        rw [rnac_some gen o i nm t l v a f hguard, h2]
        simp only [SceneNode.setChildren]
        rw [rnac_some gen o i N t l v a (renameForest gen o f).2 hguard]
        have hrl2 : renameLayer gen
            (SceneNode.mk i N t l v a (Children.some (renameForest gen o f).2)) o
            = (false, SceneNode.mk i N t l v a
                (Children.some (renameForest gen o f).2)) := by
          refine renameLayer_second gen o hg
            (SceneNode.mk i nm t l v a (Children.some f)) _ ?_ ?_
          · simp [stripNames, stripChildren, rforest_strip gen o f]
          · rw [h2]
            simp [SceneNode.name]
        rw [hrl2, ihf]
        simp [SceneNode.setChildren]

theorem rforest_again (gen : NamingStrategy) (o : AllOptions)
    (hg : ∀ m, gen m o = gen (stripNames m) o) :
    ∀ f : Forest,
      renameForest gen o (renameForest gen o f).2
        = (false, (renameForest gen o f).2)
  | Forest.nil => by simp [renameForest]
  | Forest.cons h tl => by
    rw [renameForest_cons gen o h tl,
      renameForest_cons gen o (renameNodeAndChildren gen o h).2
        (renameForest gen o tl).2,
      rnac_again gen o hg h, rforest_again gen o hg tl]
    simp
end

/-! ## Lifts to the selection level -/

theorem runAll_fst_iff (gen : NamingStrategy) (o : AllOptions)
    (ns : List SceneNode) :
    ((runAll gen o ns).1 = true ↔ (runAll gen o ns).2 ≠ ns) := by
  induction ns with
  | nil => simp [runAll]
  | cons n ns ih =>
    simp only [runAll, Bool.or_eq_true]
    rw [rnac_fst_iff gen o n, ih]
    simp only [ne_eq, List.cons.injEq]
    rw [not_and_or]

theorem runAll_again (gen : NamingStrategy) (o : AllOptions)
    (hg : ∀ m, gen m o = gen (stripNames m) o) (ns : List SceneNode) :
    runAll gen o (runAll gen o ns).2 = (false, (runAll gen o ns).2) := by
  induction ns with
  | nil => simp [runAll]
  | cons n ns ih =>
    simp only [runAll]
    rw [rnac_again gen o hg n, ih]
    simp

/-! ## Classifier branch lemmas -/

theorem classifier_text (i nm : String) (l v a : Bool) (c : Children) :
    isFigmaOrPluginGeneratedName (SceneNode.mk i nm "TEXT" l v a c)
      = (a || nm == "text") := by
  have hv : isValidFigmaNodeType "TEXT" = true := by decide
  simp [isFigmaOrPluginGeneratedName, SceneNode.name, SceneNode.type,
    SceneNode.autoRename, hv]

theorem classifier_component (i nm t : String) (l v a : Bool) (c : Children)
    (ht : t = "COMPONENT" ∨ t = "COMPONENT_SET") :
    isFigmaOrPluginGeneratedName (SceneNode.mk i nm t l v a c)
      = figmaNameWithNumberTest nm := by
  rcases ht with h | h <;> subst h
  · have hv : isValidFigmaNodeType "COMPONENT" = true := by decide
    simp [isFigmaOrPluginGeneratedName, SceneNode.name, SceneNode.type,
      SceneNode.autoRename, hv]
  · have hv : isValidFigmaNodeType "COMPONENT_SET" = true := by decide
    simp [isFigmaOrPluginGeneratedName, SceneNode.name, SceneNode.type,
      SceneNode.autoRename, hv]

theorem classifier_generic (i nm t : String) (l v a : Bool) (c : Children)
    (hval : isValidFigmaNodeType t = true) (ht : t ≠ "TEXT")
    (hc : t ≠ "COMPONENT") (hcs : t ≠ "COMPONENT_SET") :
    isFigmaOrPluginGeneratedName (SceneNode.mk i nm t l v a c)
      = (isFigmaGeneratedName nm || pluginNamePatternTest nm) := by
  simp only [isFigmaOrPluginGeneratedName, SceneNode.name, SceneNode.type,
    SceneNode.autoRename, hval]
  simp [ht, hc, hcs]

/-! ## A matched word-plus-number name ends in a digit -/

theorem afterWord_concat : ∀ cs : List Char, afterWord cs = true →
    ∃ ds d, cs = ds ++ [d] ∧ isAsciiDigit d = true := by
  intro cs
  induction cs with
  | nil => simp [afterWord]
  | cons c rest ih =>
    intro h
    rw [afterWord] at h
    by_cases hw : isJSWhitespace c = true
    · rw [if_pos hw] at h
      rw [Bool.and_eq_true, Bool.not_eq_true', List.isEmpty_eq_false] at h
      obtain ⟨h1, h2⟩ := h
      rcases List.eq_nil_or_concat' rest with hnil | ⟨L, b, hLb⟩
      · exact absurd hnil h1
      · refine ⟨c :: L, b, by rw [hLb]; rfl, ?_⟩
        exact List.all_eq_true.mp h2 b (by rw [hLb]; simp)
    · rw [if_neg hw] at h
      obtain ⟨ds, d, hcs, hd⟩ := ih h
      exact ⟨c :: ds, d, by rw [hcs]; rfl, hd⟩

theorem matchesNameWithNumber_concat (cs : List Char)
    (h : matchesNameWithNumber cs = true) :
    ∃ ds d, cs = ds ++ [d] ∧ isAsciiDigit d = true := by
  cases cs with
  | nil => simp [matchesNameWithNumber] at h
  | cons c rest =>
    rw [matchesNameWithNumber, Bool.and_eq_true] at h
    obtain ⟨ds, d, hcs, hd⟩ := afterWord_concat rest h.2
    exact ⟨c :: ds, d, by rw [hcs]; rfl, hd⟩

/-! ## The index suffix ends in the closing bracket -/

theorem matchIndexInner_concat (cs : List Char)
    (h : matchIndexInner cs = true) : ∃ ds, cs = ds ++ [']'] := by
  simp only [matchIndexInner, Bool.and_eq_true, Bool.or_eq_true] at h
  obtain ⟨hne, hor⟩ := h
  rcases hor with hbeq | hmatch
  · refine ⟨cs.takeWhile isAsciiDigit, ?_⟩
    conv_lhs => rw [← List.takeWhile_append_dropWhile (p := isAsciiDigit) (l := cs)]
    rw [eq_of_beq hbeq]
  · split at hmatch
    case h_2 => simp at hmatch
    case h_1 r1 r2 heq =>
      rw [Bool.and_eq_true] at hmatch
      have e4 : (r2.dropWhile isJSWhitespace).dropWhile isAsciiDigit = [']'] :=
        eq_of_beq hmatch.2
      have e3 := (List.takeWhile_append_dropWhile (p := isAsciiDigit)
        (l := r2.dropWhile isJSWhitespace)).symm
      rw [e4] at e3
      have e2 := (List.takeWhile_append_dropWhile (p := isJSWhitespace)
        (l := r2)).symm
      rw [e3] at e2
      have e1 := (List.takeWhile_append_dropWhile (p := isAsciiDigit)
        (l := cs)).symm
      rw [heq, e2] at e1
      refine ⟨cs.takeWhile isAsciiDigit
        ++ ',' :: (r2.takeWhile isJSWhitespace
          ++ (r2.dropWhile isJSWhitespace).takeWhile isAsciiDigit), ?_⟩
      conv_lhs => rw [e1]
      simp

theorem pluginIndexSuffix_shape (s : List Char)
    (h : pluginIndexSuffix s = true) :
    ∃ rest, s = '-' :: '[' :: rest ∧ matchIndexInner rest = true := by
  rw [pluginIndexSuffix.eq_def] at h
  split at h
  · exact ⟨_, rfl, h⟩
  · simp at h

/-! ## Facts about the fixed literal tables -/

theorem plugin_tokens_lowercase :
    ∀ tok ∈ PLUGIN_GENERATED_NAMES, tok.data.map lowerChar = tok.data := by
  decide

theorem plugin_tokens_no_bracket :
    ∀ tok ∈ PLUGIN_GENERATED_NAMES, ¬('[' ∈ tok.data) := by
  decide

theorem plugin_tokens_prefix_free :
    ∀ a ∈ PLUGIN_GENERATED_NAMES, ∀ b ∈ PLUGIN_GENERATED_NAMES,
      a.data = b.data.take a.data.length → a = b := by
  decide

theorem figma_literals_no_bracket :
    ∀ l ∈ ALL_FIGMA_NODE_TYPES ++ BOOLEAN_OPERATIONS,
      ¬('[' ∈ l.data.map lowerChar) := by
  decide

/-! ## Case variants of plugin tokens with an index suffix match nothing -/

theorem case_variant_matches_nothing
    (name tok : String) (htok : tok ∈ PLUGIN_GENERATED_NAMES)
    (v suffix : List Char) (hn : name.data = v ++ suffix)
    (hv : v.map lowerChar = tok.data) (hne : v ≠ tok.data)
    (hsuf : pluginIndexSuffix suffix = true) :
    figmaNameRegexTest name = false ∧ figmaNameWithNumberTest name = false ∧
    pluginNamePatternTest name = false := by
  obtain ⟨rest, hs, hmi⟩ := pluginIndexSuffix_shape suffix hsuf
  obtain ⟨ds, hds⟩ := matchIndexInner_concat rest hmi
  have hbr : '[' ∈ name.data := by rw [hn, hs]; simp
  refine ⟨?_, ?_, ?_⟩
  · rw [figmaNameRegexTest, List.any_eq_false]
    intro lit hlit hx
    rw [eqCI] at hx
    have hmapeq := eq_of_beq hx
    have hmem : '[' ∈ lit.data.map lowerChar := by
      rw [← hmapeq]
      have hmm := List.mem_map_of_mem lowerChar hbr
      have h5 : lowerChar '[' = '[' := rfl
      rw [h5] at hmm
      exact hmm
    exact figma_literals_no_bracket lit hlit hmem
  · rw [figmaNameWithNumberTest]
    cases hmm : matchesNameWithNumber name.data with
    | false => rfl
    | true =>
      exfalso
      obtain ⟨es, d, hcat, hd⟩ := matchesNameWithNumber_concat _ hmm
      have h1 : name.data.getLast? = some ']' := by
        rw [hn, hs, hds, show v ++ ('-' :: '[' :: (ds ++ [']']))
          = (v ++ ('-' :: '[' :: ds)) ++ [']'] by simp]
        exact List.getLast?_concat _
      have h2 : name.data.getLast? = some d := by
        rw [hcat]; exact List.getLast?_concat _
      rw [h1] at h2
      injection h2 with h3
      rw [← h3] at hd
      exact absurd hd (by decide)
  · rw [pluginNamePatternTest, List.any_eq_false]
    intro tok2 htok2 hx
    rw [pluginTokenMatch, Bool.or_eq_true] at hx
    rcases hx with hx | hx
    · have heq := eq_of_beq hx
      exact plugin_tokens_no_bracket tok2 htok2 (heq ▸ hbr)
    · rw [Bool.and_eq_true] at hx
      have htake : name.data.take tok2.data.length = tok2.data := eq_of_beq hx.1
      rw [hn] at htake
      rcases le_or_lt tok2.data.length v.length with hle | hlt
      · rw [List.take_append_of_le_length hle] at htake
        have hmap : tok2.data = tok.data.take tok2.data.length := by
          have h6 := congrArg (List.map lowerChar) htake
          rw [List.map_take, hv, plugin_tokens_lowercase tok2 htok2] at h6
          exact h6.symm
        have heq2 : tok2 = tok := plugin_tokens_prefix_free tok2 htok2 tok htok hmap
        subst heq2
        have hlen : v.length = tok2.data.length := by
          have hl := congrArg List.length hv
          simpa using hl
        rw [List.take_of_length_le (le_of_eq hlen)] at htake
        exact hne htake
      · have hvpre : v = tok2.data.take v.length := by
          rw [← htake, List.take_take, min_eq_left hlt.le]
          exact (List.take_left v suffix).symm
        have hlow : v.map lowerChar = v := by
          rw [hvpre, List.map_take, plugin_tokens_lowercase tok2 htok2]
        rw [hlow] at hv
        exact hne hv

/-! ## Claim theorems -/

/-- C1: for every node of a valid kind other than TEXT, COMPONENT and
COMPONENT_SET, the classifier returns true whenever the name
case-insensitively equals one of the 27 node-kind literals or one of the 4
boolean-operation labels, or matches the word-plus-number shape; in
particular "Frame", "FRAME", "frame" and "Rectangle 12" classify as
generated while "My Button" and "Icon" do not. -/
theorem c1_generic_name_classification (node : SceneNode)
    (hval : isValidFigmaNodeType node.type = true)
    (ht : node.type ≠ "TEXT") (hc : node.type ≠ "COMPONENT")
    (hcs : node.type ≠ "COMPONENT_SET") :
    ALL_FIGMA_NODE_TYPES.length = 27 ∧ BOOLEAN_OPERATIONS.length = 4 ∧
    ((figmaNameRegexTest node.name = true
        ∨ figmaNameWithNumberTest node.name = true)
      → isFigmaOrPluginGeneratedName node = true) ∧
    ((node.name = "Frame" ∨ node.name = "FRAME" ∨ node.name = "frame"
        ∨ node.name = "Rectangle 12")
      → isFigmaOrPluginGeneratedName node = true) ∧
    ((node.name = "My Button" ∨ node.name = "Icon")
      → isFigmaOrPluginGeneratedName node = false) := by
  obtain ⟨i, nm, t, l, v, a, c⟩ := node
  simp only [SceneNode.type] at hval ht hc hcs
  simp only [SceneNode.name]
  rw [classifier_generic i nm t l v a c hval ht hc hcs]
  refine ⟨by decide, by decide, ?_, ?_, ?_⟩
  · intro h
    rw [isFigmaGeneratedName]
    rcases h with h | h <;> simp [h]
  · rintro (h | h | h | h) <;> subst h <;> decide
  · rintro (h | h) <;> subst h <;> decide

/-- C1 witness: the theorem applied to a FRAME node named "Rectangle 12". -/
theorem c1_generic_name_classification_witness :
    isFigmaOrPluginGeneratedName
      (SceneNode.mk "1" "Rectangle 12" "FRAME" false true false Children.none)
      = true :=
  (c1_generic_name_classification _ (by decide) (by decide) (by decide)
    (by decide)).2.2.2.1 (Or.inr (Or.inr (Or.inr rfl)))

/-- C2 counterexample: with renameCustomNames set, the orchestrator renames
a node whose type tag "MYSTERY" is outside the closed kind set, so the
claim's "the orchestrator never changes its name for every choice of
options" is false as stated. -/
theorem c2_unknown_kind_cex :
    isValidFigmaNodeType "MYSTERY" = false ∧
    processBatchNodes (fun _ _ => Except.ok "renamed")
        ⟨false, false, false, false, true, false⟩
        [SceneNode.mk "1" "custom" "MYSTERY" false true false Children.none]
      = (true,
         [SceneNode.mk "1" "renamed" "MYSTERY" false true false Children.none]) :=
  ⟨by decide, rfl⟩

/-- C2 (amended): for every node whose type tag is outside the closed
27-member kind set, the classifier returns false, and — provided
options.renameCustomNames is false — the per-node rename is a no-op
returning false, so the node keeps its name; the traversal of siblings
always continues past the node. -/
theorem c2_unknown_kind (gen : NamingStrategy) (o : AllOptions)
    (node : SceneNode) (h : isValidFigmaNodeType node.type = false) :
    isFigmaOrPluginGeneratedName node = false ∧
    (o.renameCustomNames = false → renameLayer gen node o = (false, node)) ∧
    (∀ tl : Forest, (renameForest gen o (Forest.cons node tl)).2
      = Forest.cons (renameNodeAndChildren gen o node).2
          (renameForest gen o tl).2) := by
  obtain ⟨i, nm, t, l, v, a, c⟩ := node
  simp only [SceneNode.type] at h
  have hcl : isFigmaOrPluginGeneratedName (SceneNode.mk i nm t l v a c)
      = false := by
    simp [isFigmaOrPluginGeneratedName, SceneNode.type, h]
  refine ⟨hcl, fun hrc => ?_, fun tl => by rw [renameForest_cons]⟩
  by_cases h1 : (l && !o.locked) = true
  · rw [renameLayer]; simp only [SceneNode.locked]; rw [if_pos h1]
  by_cases h2 : (v == false && !o.hidden) = true
  · rw [renameLayer]; simp only [SceneNode.locked, SceneNode.visible]
    rw [if_neg h1, if_pos h2]
  by_cases h3 : (t == "INSTANCE" && !o.«instance») = true
  · rw [renameLayer]
    simp only [SceneNode.locked, SceneNode.visible, SceneNode.type]
    rw [if_neg h1, if_neg h2, if_pos h3]
  rw [renameLayer_eval gen o i nm t l v a c h1 h2 h3,
    if_pos (by simp [hrc, hcl])]

/-- C2 witness: the amended theorem applied to an unknown-kind node. -/
theorem c2_unknown_kind_witness :
    isFigmaOrPluginGeneratedName
      (SceneNode.mk "9" "custom" "MYSTERY" false true false Children.none)
      = false :=
  (c2_unknown_kind (fun _ _ => Except.ok "renamed")
    ⟨false, false, false, false, false, false⟩ _ (by decide)).1

/-- C3 counterexample: with a strategy whose proposal depends on the current
name (appending "x") and renameCustomNames on, the second consecutive run
also returns true, so "the second run returns false" is false as stated. -/
theorem c3_idempotence_cex :
    ((processBatchNodes (fun n _ => Except.ok (n.name ++ "x"))
        ⟨false, false, false, false, true, false⟩
        [SceneNode.mk "1" "a" "FRAME" false true false Children.none]).1
      = true) ∧
    ((processBatchNodes (fun n _ => Except.ok (n.name ++ "x"))
        ⟨false, false, false, false, true, false⟩
        (processBatchNodes (fun n _ => Except.ok (n.name ++ "x"))
          ⟨false, false, false, false, true, false⟩
          [SceneNode.mk "1" "a" "FRAME" false true false Children.none]).2).1
      = true) :=
  ⟨rfl, rfl⟩

/-- C3 (amended): for every selection and options, and every
naming-strategy collaborator whose proposals do not depend on current layer
names, the first run reports true exactly when some node actually changed,
and a second consecutive run returns false and changes nothing. -/
theorem c3_idempotent_rename (gen : NamingStrategy) (o : AllOptions)
    (ns : List SceneNode)
    (hg : ∀ m, gen m o = gen (stripNames m) o) :
    ((renameLayersInSelection gen ns o).1 = true
      ↔ (renameLayersInSelection gen ns o).2 ≠ ns) ∧
    renameLayersInSelection gen (renameLayersInSelection gen ns o).2 o
      = (false, (renameLayersInSelection gen ns o).2) := by
  simp only [renameLayersInSelection, processBatchNodes_eq_runAll]
  exact ⟨runAll_fst_iff gen o ns, runAll_again gen o hg ns⟩

/-- C3 witness: a constant strategy on a one-node selection; the first run
renames, the second is a no-op. -/
theorem c3_idempotent_rename_witness :
    ((renameLayersInSelection (fun _ _ => Except.ok "layer")
        [SceneNode.mk "1" "Frame" "FRAME" false true false Children.none]
        ⟨false, false, false, false, false, false⟩).1 = true) ∧
    renameLayersInSelection (fun _ _ => Except.ok "layer")
        (renameLayersInSelection (fun _ _ => Except.ok "layer")
          [SceneNode.mk "1" "Frame" "FRAME" false true false Children.none]
          ⟨false, false, false, false, false, false⟩).2
        ⟨false, false, false, false, false, false⟩
      = (false,
         (renameLayersInSelection (fun _ _ => Except.ok "layer")
           [SceneNode.mk "1" "Frame" "FRAME" false true false Children.none]
           ⟨false, false, false, false, false, false⟩).2) := by
  have hmain := c3_idempotent_rename (fun _ _ => Except.ok "layer")
    ⟨false, false, false, false, false, false⟩
    [SceneNode.mk "1" "Frame" "FRAME" false true false Children.none]
    (fun _ => rfl)
  refine ⟨hmain.1.mpr ?_, hmain.2⟩
  rw [show (renameLayersInSelection (fun _ _ => Except.ok "layer")
      [SceneNode.mk "1" "Frame" "FRAME" false true false Children.none]
      ⟨false, false, false, false, false, false⟩).2
    = [SceneNode.mk "1" "layer" "FRAME" false true false Children.none]
    from rfl]
  simp

/-- C4: for every selection and options, a naming-strategy collaborator
that throws on every call makes the whole run return false with every node
unchanged; the per-node failures never abort sibling or batch processing. -/
theorem c4_throwing_strategy (gen : NamingStrategy) (o : AllOptions)
    (ns : List SceneNode)
    (herr : ∀ n o2, ∃ e, gen n o2 = Except.error e) :
    renameLayersInSelection gen ns o = (false, ns) := by
  rw [renameLayersInSelection, processBatchNodes_eq_runAll]
  exact runAll_error gen o herr ns

/-- C4 witness: the theorem applied to a 10-node selection with an
always-throwing strategy. -/
theorem c4_throwing_strategy_witness :
    renameLayersInSelection (fun _ _ => Except.error "boom")
      [SceneNode.mk "1" "Frame" "FRAME" false true false Children.none,
       SceneNode.mk "2" "Frame 2" "FRAME" false true false Children.none,
       SceneNode.mk "3" "Group" "GROUP" false true false Children.none,
       SceneNode.mk "4" "Rectangle 4" "RECTANGLE" false true false Children.none,
       SceneNode.mk "5" "Ellipse" "ELLIPSE" false true false Children.none,
       SceneNode.mk "6" "Vector" "VECTOR" false true false Children.none,
       SceneNode.mk "7" "Line 7" "LINE" false true false Children.none,
       SceneNode.mk "8" "Star" "STAR" false true false Children.none,
       SceneNode.mk "9" "Polygon" "POLYGON" false true false Children.none,
       SceneNode.mk "10" "Slice" "SLICE" false true false Children.none]
      ⟨false, false, false, false, false, false⟩
      = (false,
         [SceneNode.mk "1" "Frame" "FRAME" false true false Children.none,
          SceneNode.mk "2" "Frame 2" "FRAME" false true false Children.none,
          SceneNode.mk "3" "Group" "GROUP" false true false Children.none,
          SceneNode.mk "4" "Rectangle 4" "RECTANGLE" false true false Children.none,
          SceneNode.mk "5" "Ellipse" "ELLIPSE" false true false Children.none,
          SceneNode.mk "6" "Vector" "VECTOR" false true false Children.none,
          SceneNode.mk "7" "Line 7" "LINE" false true false Children.none,
          SceneNode.mk "8" "Star" "STAR" false true false Children.none,
          SceneNode.mk "9" "Polygon" "POLYGON" false true false Children.none,
          SceneNode.mk "10" "Slice" "SLICE" false true false Children.none]) :=
  c4_throwing_strategy _ _ _ (fun _ _ => ⟨"boom", rfl⟩)

/-- C5: for every node of kind INSTANCE, when options.instance is false the
recursive rename skips the node and its whole subtree: it returns false and
leaves the node (children included) untouched. -/
theorem c5_instance_subtree_skipped (gen : NamingStrategy) (o : AllOptions)
    (node : SceneNode) (ht : node.type = "INSTANCE")
    (hi : o.«instance» = false) :
    renameNodeAndChildren gen o node = (false, node) := by
  obtain ⟨i, nm, t, l, v, a, c⟩ := node
  simp only [SceneNode.type] at ht
  subst ht
  exact rnac_guard gen o i nm "INSTANCE" l v a c (by simp [hi])

/-- C5 witness: an INSTANCE root with an auto-generated-named child is left
untouched when options.instance is false. -/
theorem c5_instance_subtree_skipped_witness :
    renameNodeAndChildren (fun _ _ => Except.ok "new")
      ⟨false, false, false, false, false, false⟩
      (SceneNode.mk "1" "Widget" "INSTANCE" false true false
        (Children.some (Forest.cons
          (SceneNode.mk "2" "Rectangle 2" "RECTANGLE" false true false
            Children.none) Forest.nil)))
      = (false,
         SceneNode.mk "1" "Widget" "INSTANCE" false true false
           (Children.some (Forest.cons
             (SceneNode.mk "2" "Rectangle 2" "RECTANGLE" false true false
               Children.none) Forest.nil))) :=
  c5_instance_subtree_skipped _ _ _ rfl rfl

/-- C6: the per-node rename is a no-op returning false when the node is
locked and options.locked is false, and likewise when the node is invisible
and options.hidden is false; for a selection consisting of one locked node
(no children slot) with options.locked false, the whole run returns false
and the node is unchanged. -/
theorem c6_locked_hidden_skipped (gen : NamingStrategy) (o : AllOptions)
    (node : SceneNode) :
    (((node.locked = true ∧ o.locked = false)
        ∨ (node.visible = false ∧ o.hidden = false))
      → renameLayer gen node o = (false, node)) ∧
    (∀ i nm t : String, ∀ v a : Bool, o.locked = false →
      renameLayersInSelection gen
          [SceneNode.mk i nm t true v a Children.none] o
        = (false, [SceneNode.mk i nm t true v a Children.none])) := by
  constructor
  · rintro (⟨hl, hol⟩ | ⟨hv2, hoh⟩)
    · obtain ⟨i, nm, t, l, v, a, c⟩ := node
      simp only [SceneNode.locked] at hl
      subst hl
      rw [renameLayer]
      simp only [SceneNode.locked]
      rw [if_pos (by simp [hol])]
    · obtain ⟨i, nm, t, l, v, a, c⟩ := node
      simp only [SceneNode.visible] at hv2
      subst hv2
      by_cases h1 : (l && !o.locked) = true
      · rw [renameLayer]; simp only [SceneNode.locked]; rw [if_pos h1]
      · rw [renameLayer]
        simp only [SceneNode.locked, SceneNode.visible]
        rw [if_neg h1, if_pos (by simp [hoh])]
  · intro i nm t v a hol
    rw [renameLayersInSelection, processBatchNodes_eq_runAll]
    have hn : renameNodeAndChildren gen o
        (SceneNode.mk i nm t true v a Children.none)
        = (false, SceneNode.mk i nm t true v a Children.none) := by
      cases hg2 : (t == "INSTANCE" && !o.«instance») with
      | true => exact rnac_guard gen o i nm t true v a Children.none hg2
      | false =>
        rw [rnac_none gen o i nm t true v a hg2, renameLayer]
        simp only [SceneNode.locked]
        rw [if_pos (by simp [hol])]
    simp [runAll, hn]

/-- C6 witness: the theorem applied to a single locked FRAME node. -/
theorem c6_locked_hidden_skipped_witness :
    renameLayersInSelection (fun _ _ => Except.ok "new")
      [SceneNode.mk "1" "Frame" "FRAME" true true false Children.none]
      ⟨false, false, false, false, false, false⟩
      = (false,
         [SceneNode.mk "1" "Frame" "FRAME" true true false Children.none]) :=
  (c6_locked_hidden_skipped (fun _ _ => Except.ok "new")
    ⟨false, false, false, false, false, false⟩
    (SceneNode.mk "1" "Frame" "FRAME" true true false Children.none)).2
    "1" "Frame" "FRAME" true false rfl

/-- C7: for every TEXT node, the classifier returns true exactly when the
autoRename flag is set or the name is exactly "text"; a TEXT node named
"Headline" with autoRename false is not classified as generated. -/
theorem c7_text_nodes (node : SceneNode) (ht : node.type = "TEXT") :
    (isFigmaOrPluginGeneratedName node = true
      ↔ (node.autoRename = true ∨ node.name = "text")) ∧
    ((node.autoRename = false ∧ node.name = "Headline")
      → isFigmaOrPluginGeneratedName node = false) := by
  obtain ⟨i, nm, t, l, v, a, c⟩ := node
  simp only [SceneNode.type] at ht
  subst ht
  rw [classifier_text]
  simp only [SceneNode.autoRename, SceneNode.name]
  constructor
  · simp
  · rintro ⟨ha, hnm⟩
    subst ha
    subst hnm
    decide

/-- C7 witness: a TEXT node named "Headline" with autoRename false. -/
theorem c7_text_nodes_witness :
    isFigmaOrPluginGeneratedName
      (SceneNode.mk "1" "Headline" "TEXT" false true false Children.none)
      = false :=
  (c7_text_nodes
    (SceneNode.mk "1" "Headline" "TEXT" false true false Children.none)
    rfl).2 ⟨rfl, rfl⟩

/-- C8: for every COMPONENT or COMPONENT_SET node, the classifier returns
true exactly when the name matches the word-plus-number shape; the generic
literal and plugin checks are never consulted, so "Button 3" is generated
while "Component" and "frame" (which the generic checks would accept) are
not. -/
theorem c8_component_nodes (node : SceneNode)
    (ht : node.type = "COMPONENT" ∨ node.type = "COMPONENT_SET") :
    (isFigmaOrPluginGeneratedName node = true
      ↔ figmaNameWithNumberTest node.name = true) ∧
    (node.name = "Button 3" → isFigmaOrPluginGeneratedName node = true) ∧
    (node.name = "Component" → isFigmaOrPluginGeneratedName node = false) ∧
    (node.name = "frame" → isFigmaOrPluginGeneratedName node = false) := by
  obtain ⟨i, nm, t, l, v, a, c⟩ := node
  simp only [SceneNode.type] at ht
  simp only [SceneNode.name]
  rw [classifier_component i nm t l v a c ht]
  refine ⟨Iff.rfl, ?_, ?_, ?_⟩
  all_goals intro h
  all_goals subst h
  all_goals decide

/-- C8 witness: a COMPONENT node named "Button 3" is classified as
generated. -/
theorem c8_component_nodes_witness :
    isFigmaOrPluginGeneratedName
      (SceneNode.mk "1" "Button 3" "COMPONENT" false true false Children.none)
      = true :=
  (c8_component_nodes
    (SceneNode.mk "1" "Button 3" "COMPONENT" false true false Children.none)
    (Or.inl rfl)).2.1 rfl

/-- C9: for every valid non-TEXT, non-COMPONENT, non-COMPONENT_SET node
whose name fails the generic host-name check, the classifier returns true
exactly when the name matches the plugin pattern (a fixed lowercase token,
optionally followed by an index suffix -[N] or -[N, N]); "row-[3]",
"col-[2, 5]" and "boolean-union" classify as plugin-generated while "row-3"
does not. -/
theorem c9_plugin_names (node : SceneNode)
    (hval : isValidFigmaNodeType node.type = true)
    (ht : node.type ≠ "TEXT") (hcp : node.type ≠ "COMPONENT")
    (hcs : node.type ≠ "COMPONENT_SET")
    (hng : isFigmaGeneratedName node.name = false) :
    (isFigmaOrPluginGeneratedName node = true
      ↔ pluginNamePatternTest node.name = true) ∧
    ((node.name = "row-[3]" ∨ node.name = "col-[2, 5]"
        ∨ node.name = "boolean-union")
      → isFigmaOrPluginGeneratedName node = true) ∧
    (node.name = "row-3" → isFigmaOrPluginGeneratedName node = false) := by
  obtain ⟨i, nm, t, l, v, a, c⟩ := node
  simp only [SceneNode.type] at hval ht hcp hcs
  simp only [SceneNode.name] at hng ⊢
  rw [classifier_generic i nm t l v a c hval ht hcp hcs, hng]
  simp only [Bool.false_or]
  refine ⟨by simp, ?_, ?_⟩
  · rintro (h | h | h) <;> subst h <;> decide
  · intro h
    subst h
    decide

/-- C9 witness: a FRAME node named "row-[3]" (which fails the generic
check) is classified as plugin-generated. -/
theorem c9_plugin_names_witness :
    isFigmaOrPluginGeneratedName
      (SceneNode.mk "1" "row-[3]" "FRAME" false true false Children.none)
      = true :=
  (c9_plugin_names
    (SceneNode.mk "1" "row-[3]" "FRAME" false true false Children.none)
    (by decide) (by decide) (by decide) (by decide) (by decide)).2.1
    (Or.inl rfl)

/-- C10: plugin-name matching is case-sensitive: for every plugin token, a
name consisting of a case variant of the token (equal after lower-casing
but not identical) followed by an index suffix -[N] or -[N, N] is
classified as not generated on every valid non-TEXT node kind, because it
matches neither the plugin pattern, the case-insensitive literal set, nor
the word-plus-number shape. -/
theorem c10_plugin_case_sensitivity (node : SceneNode) (tok : String)
    (htok : tok ∈ PLUGIN_GENERATED_NAMES)
    (v suffix : List Char)
    (hn : node.name.data = v ++ suffix)
    (hv : v.map lowerChar = tok.data)
    (hne : v ≠ tok.data)
    (hsuf : pluginIndexSuffix suffix = true)
    (hval : isValidFigmaNodeType node.type = true)
    (ht : node.type ≠ "TEXT") :
    isFigmaOrPluginGeneratedName node = false := by
  obtain ⟨i, nm, t, l, w, a, c⟩ := node
  simp only [SceneNode.type] at hval ht
  simp only [SceneNode.name] at hn
  obtain ⟨hlit, hwn, hplug⟩ :=
    case_variant_matches_nothing nm tok htok v suffix hn hv hne hsuf
  by_cases hcc : t = "COMPONENT" ∨ t = "COMPONENT_SET"
  · rw [classifier_component i nm t l w a c hcc]
    exact hwn
  · push_neg at hcc
    rw [classifier_generic i nm t l w a c hval ht hcc.1 hcc.2,
      isFigmaGeneratedName, hlit, hwn, hplug]
    rfl

/-- C10 witness: "Row-[3]" (case variant of the token "row" with an index
suffix) on a FRAME node is not classified as generated. -/
theorem c10_plugin_case_sensitivity_witness :
    isFigmaOrPluginGeneratedName
      (SceneNode.mk "1" "Row-[3]" "FRAME" false true false Children.none)
      = false :=
  c10_plugin_case_sensitivity
    (SceneNode.mk "1" "Row-[3]" "FRAME" false true false Children.none)
    "row" (by decide) ['R', 'o', 'w'] ['-', '[', '3', ']']
    (by decide) (by decide) (by decide) (by decide) (by decide) (by decide)
